import Mathlib

/-!
# FloraJS Agent — shallow embedding

A shallow embedding of `src/agent.js` (the Agent stepping engine of FloraJS):
kinematic state, force accumulation, steering behaviors (seek, follow, flee,
separate, align, cohesion), proximity forces (attract, drag), boundary policy
(wrap / bounce / avoid-edges) and the per-frame `step` orchestration.

Numbers are modelled as rationals (the JS code computes with IEEE doubles; the
rational model is the exact-arithmetic idealization of the same formulas).
JS `Math` library functions (`sqrt`, `cos`, `sin`, `atan2`) and the
degree/radian conversions from the repository's `Utils` module are external to
`agent.js`; they enter the model as an explicit `MathEnv` of abstract
functions, so every definition stays executable and theorems state exactly
which values of `sqrt` they rely on.

Mutation in the JS source is modelled by explicit state passing: every method
that mutates `this` becomes a function `AgentState → ... → AgentState`, and
vectors are values (the source's copy-before-scale discipline, e.g. in
`applyForce`, is reflected by which expressions read which fields).
-/

/-- Abstract interface for the JS `Math` built-ins and the `Utils`
degree/radian conversions used by `agent.js`. These are external library
functions (not part of the repository's `src/agent.js`), so the embedding
takes them as parameters instead of fixing an implementation. -/
structure MathEnv where
  sqrt : ℚ → ℚ
  cos : ℚ → ℚ
  sin : ℚ → ℚ
  atan2 : ℚ → ℚ → ℚ
  degToRad : ℚ → ℚ
  radToDeg : ℚ → ℚ

/-- Modelled from the spec: the repository's `Vector2D` value type
(`{x: float, y: float}`, spec section 4.1); the vector source file is not
under `src/`. -/
structure Vec where
  x : ℚ
  y : ℚ
deriving DecidableEq, Repr

namespace Vec

/-- Modelled from the spec: `Vector2D.add`. -/
def add (a b : Vec) : Vec := ⟨a.x + b.x, a.y + b.y⟩

/-- Modelled from the spec: `Vector2D.sub`. -/
def sub (a b : Vec) : Vec := ⟨a.x - b.x, a.y - b.y⟩

/-- Modelled from the spec: `Vector2D.mult(scalar)`. -/
def mult (a : Vec) (k : ℚ) : Vec := ⟨a.x * k, a.y * k⟩

/-- Modelled from the spec: `Vector2D.div(scalar)`. (In ℚ, division by zero
yields zero; theorems that depend on a divisor assume it nonzero.) -/
def div (a : Vec) (k : ℚ) : Vec := ⟨a.x / k, a.y / k⟩

/-- Modelled from the spec: `Vector2D.mag()`, the Euclidean magnitude
`Math.sqrt(x*x + y*y)`; the square root is the environment's. -/
def mag (env : MathEnv) (a : Vec) : ℚ := env.sqrt (a.x * a.x + a.y * a.y)

/-- Modelled from the spec: `Vector2D.normalize()` — divide by the magnitude,
a no-op when the magnitude is 0 (spec section 4.1: defined, not an error). -/
def normalize (env : MathEnv) (a : Vec) : Vec :=
  let m := mag env a
  if m ≠ 0 then div a m else a

/-- Modelled from the spec: `Vector2D.limit(max)` — clamps the magnitude to at
most `high`, preserving direction. -/
def limit (env : MathEnv) (a : Vec) (high : ℚ) : Vec :=
  if mag env a > high then mult (normalize env a) high else a

/-- Modelled from the spec: `Vector2D.limitLow(min)` — scales up to at least
`low` magnitude when the vector is non-zero. -/
def limitLow (env : MathEnv) (a : Vec) (low : ℚ) : Vec :=
  let m := mag env a
  if m ≠ 0 ∧ m < low then mult (normalize env a) low else a

/-- Modelled from the spec: `Vector2D.distance(other)` — magnitude of the
componentwise difference. -/
def distance (env : MathEnv) (a b : Vec) : ℚ := mag env (sub a b)

/-- Modelled from the spec: the static combinator `Vector.VectorSub(a, b)`
which allocates a new vector `a - b`. -/
def VectorSub (a b : Vec) : Vec := sub a b

end Vec

/-- Modelled from the spec: `Utils.constrain(value, low, high)` — clamp used
by `attract` ("distance is clamped to [own_area/8, source_area]",
spec section 4.3); `Utils` is not under `src/`. -/
def constrain (v low high : ℚ) : ℚ :=
  if v > high then high else if v < low then low else v

/-- Modelled from the spec: `Utils.map(value, min1, max1, min2, max2)` — the
linear ramp used by `seek` ("magnitude ramps linearly from 0 to maxSpeed as
distance shrinks from world.width/2 to 0", spec section 4.2). -/
def mapRange (v min1 max1 min2 max2 : ℚ) : ℚ :=
  min2 + (v - min1) / (max1 - min1) * (max2 - min2)

/-- An element of the global registries (liquids, repellers, attractors, and
the all-elements list used by flocking). Duck-typed in JS; the record carries
the union of the attribute sets the Agent code reads: `{location, velocity,
width, height, className, id}`, plus `c` for liquids and `G`, `mass` for
attractors/repellers (spec section 6). -/
structure Elem where
  id : ℕ
  className : String
  location : Vec
  velocity : Vec
  width : ℚ
  height : ℚ
  G : ℚ
  mass : ℚ
  c : ℚ
deriving DecidableEq, Repr

/-- The external World collaborator (spec section 6): bounds, global forces,
optional friction coefficient, and the camera offset `location`. -/
structure World where
  width : ℚ
  height : ℚ
  gravity : Vec
  wind : Vec
  c : Option ℚ
  location : Vec
deriving DecidableEq, Repr

/-- A sensor attached to an agent (spec section 3): polar offset, a mutable
location repositioned every step, and an activation flag. Its activation
force is supplied by the environment (`Env.sensorForce`), since
`getActivationForce` is an external callback. -/
structure Sensor where
  offsetDistance : ℚ
  offsetAngle : ℚ
  location : Vec
  activated : Bool
deriving DecidableEq, Repr

/-- A flow field (spec section 6): a resolution and a mapping from
column index to a mapping from row index to a cell vector. JS objects keyed
by integers are modelled as association lists. -/
structure FlowField where
  resolution : ℚ
  field : List (Int × List (Int × Vec))
deriving DecidableEq, Repr

/-- The slice of a parent element the Agent's parenting code reads:
`parent.location` and `parent.angle`. -/
structure ParentRef where
  location : Vec
  angle : ℚ
deriving DecidableEq, Repr

/-- The full mutable state of one Agent: the fields initialized by the
external `Element` base (identity, kinematics, size, world reference, scratch
vectors) together with every field the `Agent` constructor sets
(`agent.js:55-83`). Scratch vectors (`applyForceVector`,
`separateSumForceVector`, ...) are the per-agent reusable buffers the source
keeps as instance fields. -/
structure AgentState where
  id : ℕ
  className : String
  location : Vec
  velocity : Vec
  acceleration : Vec
  angle : ℚ
  width : ℚ
  height : ℚ
  world : World
  isPressed : Bool
  controlCamera : Bool
  sensors : List Sensor
  parent : Option ParentRef
  -- scratch buffers initialized by the Element base
  applyForceVector : Vec
  followTargetVector : Vec
  followDesiredVelocity : Vec
  separateSumForceVector : Vec
  alignSumForceVector : Vec
  cohesionSumForceVector : Vec
  checkCameraEdgesVector : Vec
  cameraDiffVector : Vec
  zeroForceVector : Vec
  -- fields set by the Agent constructor
  mass : ℚ
  maxSpeed : ℚ
  minSpeed : ℚ
  motorSpeed : ℚ
  lifespan : ℚ
  offsetDistance : ℚ
  offsetAngle : ℚ
  pointToDirection : Bool
  followMouse : Bool
  seekTarget : Option Elem
  followTarget : Option Elem
  isStatic : Bool
  draggable : Bool
  checkEdges : Bool
  wrapEdges : Bool
  avoidEdges : Bool
  avoidEdgesStrength : ℚ
  bounciness : ℚ
  maxSteeringForce : ℚ
  turningRadius : ℚ
  thrust : ℚ
  flocking : Bool
  desiredSeparation : ℚ
  separateStrength : ℚ
  alignStrength : ℚ
  cohesionStrength : ℚ
  flowField : Option FlowField


/-- Optional per-agent hook functions (`beforeStep` / `afterStep`,
`agent.js:82-83`). In JS they are invoked with `apply(this)` and may mutate
the agent arbitrarily, so they are modelled as optional state transformers.
They are kept outside `AgentState` (a structure cannot contain functions on
itself); an agent "has a hook configured" when the corresponding slot is
`some`. -/
structure Hooks where
  beforeStep : Option (AgentState → AgentState) := none
  afterStep : Option (AgentState → AgentState) := none

/-- JS `if (this.beforeStep) this.beforeStep.apply(this)`. -/
def applyOptHook : Option (AgentState → AgentState) → AgentState → AgentState
  | none, s => s
  | some f, s => f s

/-- The ambient global state `step` reads (spec section 6): the registries
`exports.liquids` / `exports.repellers` / `exports.attractors`, the
all-elements list `exports.elementList.all()`, the mouse location, the math
library, and the external `getActivationForce` callback of sensors. -/
structure Env where
  math : MathEnv
  liquids : List Elem
  repellers : List Elem
  attractors : List Elem
  elements : List Elem
  mouseLoc : Vec
  sensorForce : Sensor → AgentState → Vec

/-- `Agent.prototype.applyForce` (`agent.js:340-349`): copies the force into
the scratch `applyForceVector`, divides the copy by the agent's mass
(F = M·A), and adds it into the acceleration. The argument itself is read
but never written. -/
def applyForce (s : AgentState) (force : Vec) : AgentState :=
  let v := Vec.mk force.x force.y
  let v := Vec.div v s.mass
  { s with applyForceVector := v, acceleration := Vec.add s.acceleration v }

/-- `Agent.prototype.seek` (`agent.js:357-378`): desired velocity toward the
target, arrival-damped inside half the world width, minus current velocity,
clamped to `maxSteeringForce`. -/
def seek (env : MathEnv) (s : AgentState) (targetLocation : Vec) : Vec :=
  let desiredVelocity := Vec.VectorSub targetLocation s.location
  let distanceToTarget := Vec.mag env desiredVelocity
  let desiredVelocity := Vec.normalize env desiredVelocity
  let desiredVelocity :=
    if distanceToTarget < s.world.width / 2 then
      Vec.mult desiredVelocity
        (mapRange distanceToTarget 0 (s.world.width / 2) 0 s.maxSpeed)
    else
      Vec.mult desiredVelocity s.maxSpeed
  let desiredVelocity := Vec.sub desiredVelocity s.velocity
  Vec.limit env desiredVelocity s.maxSteeringForce

/-- `Agent.prototype.follow` (`agent.js:387-399`): writes the target's raw
location into the scratch `followDesiredVelocity`, scales it by `maxSpeed`
(not relative to the agent's position), subtracts the velocity and clamps.
Returns the updated state (scratch buffer) and the returned force. -/
def follow (env : MathEnv) (s : AgentState) (targetLocation : Vec) :
    AgentState × Vec :=
  let d := Vec.mk targetLocation.x targetLocation.y
  let d := Vec.mult d s.maxSpeed
  let d := Vec.sub d s.velocity
  let d := Vec.limit env d s.maxSteeringForce
  ({ s with followDesiredVelocity := d }, d)

/-- `Agent.prototype.separate` (`agent.js:420-455`): resets the scratch sum
(both components, `agent.js:427-428`), accumulates normalized
inverse-distance offsets from same-class neighbors closer than
`desiredSeparation`, and converts the average to a steering force; returns
the zero force vector when no neighbor qualifies. -/
def separate (env : MathEnv) (s : AgentState) (elements : List Elem) :
    AgentState × Vec :=
  let sum0 := { s.separateSumForceVector with x := 0 }
  let sum0 := { sum0 with y := 0 }
  let acc := elements.foldl (fun (p : Vec × ℕ) element =>
    if s.className = element.className ∧ s.id ≠ element.id then
      let d := Vec.distance env s.location element.location
      if 0 < d ∧ d < s.desiredSeparation then
        let diff := Vec.VectorSub s.location element.location
        let diff := Vec.normalize env diff
        let diff := Vec.div diff d
        (Vec.add p.1 diff, p.2 + 1)
      else p
    else p) (sum0, 0)
  let sum := acc.1
  let count := acc.2
  if count > 0 then
    let sum := Vec.div sum count
    let sum := Vec.normalize env sum
    let sum := Vec.mult sum s.maxSpeed
    let sum := Vec.sub sum s.velocity
    let sum := Vec.limit env sum s.maxSteeringForce
    ({ s with separateSumForceVector := sum }, sum)
  else
    ({ s with separateSumForceVector := sum }, s.zeroForceVector)

/-- `Agent.prototype.align` (`agent.js:464-497`): resets the scratch sum
(both components, `agent.js:472-473`), accumulates neighbor velocities within
`width * 2`, and converts the average to a steering force; returns the zero
force vector when no neighbor qualifies. -/
def align (env : MathEnv) (s : AgentState) (elements : List Elem) :
    AgentState × Vec :=
  let neighbordist := s.width * 2
  let sum0 := { s.alignSumForceVector with x := 0 }
  let sum0 := { sum0 with y := 0 }
  let acc := elements.foldl (fun (p : Vec × ℕ) element =>
    let d := Vec.distance env s.location element.location
    if 0 < d ∧ d < neighbordist then
      if s.className = element.className ∧ s.id ≠ element.id then
        (Vec.add p.1 element.velocity, p.2 + 1)
      else p
    else p) (sum0, 0)
  let sum := acc.1
  let count := acc.2
  if count > 0 then
    let sum := Vec.div sum count
    let sum := Vec.normalize env sum
    let sum := Vec.mult sum s.maxSpeed
    let sum := Vec.sub sum s.velocity
    let sum := Vec.limit env sum s.maxSteeringForce
    ({ s with alignSumForceVector := sum }, sum)
  else
    ({ s with alignSumForceVector := sum }, s.zeroForceVector)

/-- `Agent.prototype.cohesion` (`agent.js:506-540`): accumulates neighbor
locations within the fixed radius 10 and converts the offset of their average
from the agent into a steering force. NOTE the source resets the scratch
sum's `y` component twice and never its `x` component
(`agent.js:514-515`: both lines read `this.cohesionSumForceVector.y = 0;`);
the embedding mirrors those two assignments exactly, so a previous `x`
accumulation survives into the new sum. -/
def cohesion (env : MathEnv) (s : AgentState) (elements : List Elem) :
    AgentState × Vec :=
  let sum0 := { s.cohesionSumForceVector with y := 0 }
  let sum0 := { sum0 with y := 0 }
  let acc := elements.foldl (fun (p : Vec × ℕ) element =>
    let d := Vec.distance env s.location element.location
    if 0 < d ∧ d < 10 then
      if s.className = element.className ∧ s.id ≠ element.id then
        (Vec.add p.1 element.location, p.2 + 1)
      else p
    else p) (sum0, 0)
  let sum := acc.1
  let count := acc.2
  if count > 0 then
    let sum := Vec.div sum count
    let sum := Vec.sub sum s.location
    let sum := Vec.normalize env sum
    let sum := Vec.mult sum s.maxSpeed
    let sum := Vec.sub sum s.velocity
    let sum := Vec.limit env sum s.maxSteeringForce
    ({ s with cohesionSumForceVector := sum }, sum)
  else
    ({ s with cohesionSumForceVector := sum }, s.zeroForceVector)

/-- `Agent.prototype.flock` (`agent.js:404-411`): applies separate, align and
cohesion in order, each scaled by its strength and immediately accumulated
into the acceleration. -/
def flock (env : MathEnv) (s : AgentState) (elements : List Elem) :
    AgentState :=
  let p := separate env s elements
  let s := applyForce p.1 (Vec.mult p.2 p.1.separateStrength)
  let p := align env s elements
  let s := applyForce p.1 (Vec.mult p.2 p.1.alignStrength)
  let p := cohesion env s elements
  applyForce p.1 (Vec.mult p.2 p.1.cohesionStrength)

/-- `Agent.prototype.flee` (`agent.js:549-559`): unit vector toward the
target scaled by `-maxSpeed` (direction away at full speed); no clamp. -/
def flee (env : MathEnv) (s : AgentState) (targetLocation : Vec) : Vec :=
  let desiredVelocity := Vec.VectorSub targetLocation s.location
  let desiredVelocity := Vec.normalize env desiredVelocity
  Vec.mult desiredVelocity (-s.maxSpeed)

/-- `Agent.prototype.drag` (`agent.js:567-579`): quadratic drag opposing the
current velocity direction, magnitude `-target.c * speed²`. -/
def drag (env : MathEnv) (s : AgentState) (target : Elem) : Vec :=
  let speed := Vec.mag env s.velocity
  let dragMagnitude := -1 * target.c * speed * speed
  let d := Vec.mk s.velocity.x s.velocity.y
  let d := Vec.normalize env d
  Vec.mult d dragMagnitude

/-- `Agent.prototype.attract` (`agent.js:587-601`): inverse-square force
toward the attractor; the center distance is clamped to
`[width*height/8, attractor.width*attractor.height]` before computing
`strength = G * attractor.mass * mass / distance²`. -/
def attract (env : MathEnv) (s : AgentState) (attractor : Elem) : Vec :=
  let force := Vec.VectorSub attractor.location s.location
  let distance := Vec.mag env force
  let distance :=
    constrain distance (s.width * s.height / 8)
      (attractor.width * attractor.height)
  let force := Vec.normalize env force
  let strength := (attractor.G * attractor.mass * s.mass) / (distance * distance)
  Vec.mult force strength

/-- `Agent.prototype.isInside` (`agent.js:609-622`): axis-aligned
bounding-box overlap test against a container. -/
def isInside (s : AgentState) (container : Elem) : Bool :=
  decide (s.location.x + s.width / 2 > container.location.x - container.width / 2) &&
  decide (s.location.x - s.width / 2 < container.location.x + container.width / 2) &&
  decide (s.location.y + s.height / 2 > container.location.y - container.height / 2) &&
  decide (s.location.y - s.height / 2 < container.location.y + container.height / 2)

/-- JS truthiness of the local `maxSpeed` in `checkAvoidEdges`
(`if (maxSpeed)`): `undefined` and `0` are falsy. -/
def qTruthy : Option ℚ → Bool
  | none => false
  | some m => decide (m ≠ 0)

/-- `Agent.prototype.checkAvoidEdges` (`agent.js:628-655`): steer away from a
world edge when within `avoidEdgesStrength` of it. The local `maxSpeed` is a
single `var` shared by the x and y blocks: the y block (`agent.js:644-648`)
does not reset it, so when neither y condition fires it keeps the value the
x block left in it. The embedding mirrors that exactly. -/
def checkAvoidEdges (env : MathEnv) (s : AgentState) : AgentState :=
  let maxSpeed : Option ℚ :=
    if s.location.x < s.avoidEdgesStrength then some s.maxSpeed
    else if s.location.x > s.world.width - s.avoidEdgesStrength then
      some (-s.maxSpeed)
    else none
  let s :=
    if qTruthy maxSpeed then
      let desiredVelocity := Vec.mk (maxSpeed.getD 0) s.velocity.y
      let desiredVelocity := Vec.sub desiredVelocity s.velocity
      let desiredVelocity := Vec.limit env desiredVelocity s.maxSteeringForce
      applyForce s desiredVelocity
    else s
  let maxSpeed : Option ℚ :=
    if s.location.y < s.avoidEdgesStrength then some s.maxSpeed
    else if s.location.y > s.world.height - s.avoidEdgesStrength then
      some (-s.maxSpeed)
    else maxSpeed
  if qTruthy maxSpeed then
    let desiredVelocity := Vec.mk s.velocity.x (maxSpeed.getD 0)
    let desiredVelocity := Vec.sub desiredVelocity s.velocity
    let desiredVelocity := Vec.limit env desiredVelocity s.maxSteeringForce
    applyForce s desiredVelocity
  else s

/-- `Agent.prototype.checkWorldEdges` (`agent.js:663-755`): wrap or bounce on
each axis; records the camera displacement and adds it to the world's camera
offset when the agent controls the camera. Returns the updated state and
whether any boundary was crossed. -/
def checkWorldEdges (s : AgentState) : AgentState × Bool :=
  let x := s.location.x
  let y := s.location.y
  -- x axis
  let px : AgentState × Bool :=
    if s.wrapEdges then
      if s.location.x > s.world.width then
        let s := { s with location := { s.location with x := 0 } }
        let s :=
          if s.controlCamera then
            { s with cameraDiffVector := ⟨x - s.location.x, 0⟩ }
          else s
        (s, true)
      else if s.location.x < 0 then
        let s := { s with location := { s.location with x := s.world.width } }
        let s :=
          if s.controlCamera then
            { s with cameraDiffVector := ⟨x - s.location.x, 0⟩ }
          else s
        (s, true)
      else (s, false)
    else
      if s.location.x + s.width / 2 > s.world.width then
        let s :=
          { s with location := { s.location with x := s.world.width - s.width / 2 } }
        let s :=
          { s with velocity := { s.velocity with x := s.velocity.x * (-1) * s.bounciness } }
        let s :=
          if s.controlCamera then
            { s with cameraDiffVector := ⟨x - s.location.x, 0⟩ }
          else s
        (s, true)
      else if s.location.x < s.width / 2 then
        let s := { s with location := { s.location with x := s.width / 2 } }
        let s :=
          { s with velocity := { s.velocity with x := s.velocity.x * (-1) * s.bounciness } }
        let s :=
          if s.controlCamera then
            { s with cameraDiffVector := ⟨x - s.location.x, 0⟩ }
          else s
        (s, true)
      else (s, false)
  let s := px.1
  let check := px.2
  -- y axis
  let py : AgentState × Bool :=
    if s.wrapEdges then
      if s.location.y > s.world.height then
        let s := { s with location := { s.location with y := 0 } }
        let s :=
          if s.controlCamera then
            { s with cameraDiffVector := ⟨0, y - s.location.y⟩ }
          else s
        (s, true)
      else if s.location.y < 0 then
        let s := { s with location := { s.location with y := s.world.height } }
        let s :=
          if s.controlCamera then
            { s with cameraDiffVector := ⟨0, y - s.location.y⟩ }
          else s
        (s, true)
      else (s, check)
    else
      if s.location.y + s.height / 2 > s.world.height then
        let s :=
          { s with location := { s.location with y := s.world.height - s.height / 2 } }
        let s :=
          { s with velocity := { s.velocity with y := s.velocity.y * (-1) * s.bounciness } }
        let s :=
          if s.controlCamera then
            { s with cameraDiffVector := ⟨0, y - s.location.y⟩ }
          else s
        (s, true)
      else if s.location.y < s.height / 2 then
        let s := { s with location := { s.location with y := s.height / 2 } }
        let s :=
          { s with velocity := { s.velocity with y := s.velocity.y * (-1) * s.bounciness } }
        let s :=
          if s.controlCamera then
            { s with cameraDiffVector := ⟨0, y - s.location.y⟩ }
          else s
        (s, true)
      else (s, check)
  let s := py.1
  let check := py.2
  let s :=
    if check ∧ s.controlCamera then
      { s with world := { s.world with location := Vec.add s.world.location s.cameraDiffVector } }
    else s
  (s, check)

/-- `Agent.prototype.checkCameraEdges` (`agent.js:760-768`): copies the
velocity into the scratch vector, negates it, and shifts the world's camera
offset by it. -/
def checkCameraEdges (s : AgentState) : AgentState :=
  let v := Vec.mk s.velocity.x s.velocity.y
  let v := Vec.mult v (-1)
  { s with checkCameraEdgesVector := v,
           world := { s.world with location := Vec.add s.world.location v } }

/-- `Agent.prototype.getLocation` (`agent.js:777-788`) and
`Agent.prototype.getVelocity` (`agent.js:797-808`) return a vector, a number
or `undefined` depending on the axis argument; this sum type models those
JS return values. -/
inductive JsValue where
  | vec (v : Vec)
  | num (q : ℚ)
  | undef
deriving DecidableEq, Repr

/-- `Agent.prototype.getLocation` (`agent.js:777-788`): with a falsy axis
argument, allocates a fresh vector from the location's components; with
axis `x` / `y`, returns that component; otherwise `undefined`. -/
def getLocation (s : AgentState) (type : Option String) : JsValue :=
  match type with
  | none => JsValue.vec (Vec.mk s.location.x s.location.y)
  | some t =>
    if t = "" then JsValue.vec (Vec.mk s.location.x s.location.y)
    else if t = "x" then JsValue.num s.location.x
    else if t = "y" then JsValue.num s.location.y
    else JsValue.undef

/-- `Agent.prototype.getVelocity` (`agent.js:797-808`): with a falsy axis
argument the source allocates the fresh vector from
`this.location.x, this.location.y` (`agent.js:802`) — the location's
components, not the velocity's; with axis `x` / `y` it returns
`this.velocity.x` / `this.velocity.y`; otherwise `undefined`. The embedding
mirrors the source line by line. -/
def getVelocity (s : AgentState) (type : Option String) : JsValue :=
  match type with
  | none => JsValue.vec (Vec.mk s.location.x s.location.y)
  | some t =>
    if t = "" then JsValue.vec (Vec.mk s.location.x s.location.y)
    else if t = "x" then JsValue.num s.velocity.x
    else if t = "y" then JsValue.num s.velocity.y
    else JsValue.undef

/-- The liquid loop of `step` (`agent.js:151-160`): for every registered
liquid other than the agent itself whose bounds contain the agent, apply the
drag force. (The source also toggles the liquid's CSS class; DOM rendering is
out of scope.) -/
def stepLiquids (env : Env) (s : AgentState) : AgentState :=
  env.liquids.foldl
    (fun st l =>
      if st.id ≠ l.id ∧ isInside st l then applyForce st (drag env.math st l)
      else st) s

/-- The repeller loop of `step` (`agent.js:162-169`): apply `attract` for
every registered repeller other than the agent itself. -/
def stepRepellers (env : Env) (s : AgentState) : AgentState :=
  env.repellers.foldl
    (fun st r => if st.id ≠ r.id then applyForce st (attract env.math st r) else st)
    s

/-- The attractor loop of `step` (`agent.js:171-178`): apply `attract` for
every registered attractor other than the agent itself. -/
def stepAttractors (env : Env) (s : AgentState) : AgentState :=
  env.attractors.foldl
    (fun st a => if st.id ≠ a.id then applyForce st (attract env.math st a) else st)
    s

/-- The sensor loop of `step` (`agent.js:180-202`): reposition each sensor at
a polar offset from the agent, apply the activation force of each activated
sensor, and report whether any sensor activated. -/
def stepSensors (env : Env) (s : AgentState) : AgentState × Bool :=
  let r := s.sensors.foldl
    (fun (acc : AgentState × List Sensor × Bool) sensor =>
      let st := acc.1
      let theta := env.math.degToRad (st.angle + sensor.offsetAngle)
      let x := sensor.offsetDistance * env.math.cos theta
      let y := sensor.offsetDistance * env.math.sin theta
      let sensor :=
        { sensor with
            location := Vec.add (Vec.mk st.location.x st.location.y) (Vec.mk x y) }
      let st :=
        if sensor.activated then applyForce st (env.sensorForce sensor st) else st
      (st, acc.2.1 ++ [sensor], acc.2.2 || sensor.activated))
    (s, ([] : List Sensor), false)
  ({ r.1 with sensors := r.2.1 }, r.2.2)

/-- The motor-speed branch of `step` (`agent.js:208-217`): when no sensor
activated and `motorSpeed` is non-zero, push along the current velocity
direction — decelerating when faster than `motorSpeed`, else accelerating. -/
def stepMotor (env : Env) (s : AgentState) (sensorActivated : Bool) :
    AgentState :=
  if ¬sensorActivated ∧ s.motorSpeed ≠ 0 then
    let dir := Vec.normalize env.math (Vec.mk s.velocity.x s.velocity.y)
    let dir :=
      if Vec.mag env.math s.velocity > s.motorSpeed then
        Vec.mult dir (-s.motorSpeed)
      else Vec.mult dir s.motorSpeed
    applyForce s dir
  else s

/-- The friction branch of `step` (`agent.js:219-225`): when `world.c` is
truthy, apply friction opposing the velocity, scaled by `world.c`. -/
def stepFriction (env : Env) (s : AgentState) : AgentState :=
  match s.world.c with
  | none => s
  | some c =>
    if c ≠ 0 then
      let friction := Vec.mult (Vec.mk s.velocity.x s.velocity.y) (-1)
      let friction := Vec.normalize env.math friction
      let friction := Vec.mult friction c
      applyForce s friction
    else s

/-- The flow-field branch of `step` (`agent.js:242-263`): resolve the cell
under the agent via `floor(location / resolution)`. When the column exists,
follow either the cell vector or, when only the row is missing, the agent's
own location (written into the scratch `followTargetVector`); when the
column itself is missing, the branch does nothing at all. -/
def flowFieldForceStep (env : Env) (s : AgentState) : AgentState :=
  match s.flowField with
  | none => s
  | some ff =>
    let col : ℤ := ⌊s.location.x / ff.resolution⌋
    let row : ℤ := ⌊s.location.y / ff.resolution⌋
    match ff.field.lookup col with
    | none => s
    | some column =>
      let s :=
        match column.lookup row with
        | some loc => { s with followTargetVector := ⟨loc.x, loc.y⟩ }
        | none =>
          { s with followTargetVector := ⟨s.location.x, s.location.y⟩ }
      let p := follow env.math s s.followTargetVector
      applyForce p.1 p.2

/-- The parenting branch of `step` (`agent.js:302-319`): with a parent set,
the location is overridden — a polar offset from the parent when
`offsetDistance` is non-zero, else an exact copy of the parent's location. -/
def stepParent (env : Env) (s : AgentState) : AgentState :=
  match s.parent with
  | none => s
  | some parent =>
    if s.offsetDistance ≠ 0 then
      let theta := env.math.degToRad (parent.angle + s.offsetAngle)
      let x := s.offsetDistance * env.math.cos theta
      let y := s.offsetDistance * env.math.sin theta
      { s with
          location :=
            Vec.add (Vec.mk parent.location.x parent.location.y) (Vec.mk x y) }
    else
      { s with location := parent.location }

/-- The integration phase of `step` (`agent.js:275-285`): add the
acceleration to the velocity, clamp the speed to `maxSpeed` (skipped when the
configured limit is zero) and scale it up to `minSpeed` (skipped when zero),
then add the velocity to the location. -/
def stepIntegrate (env : MathEnv) (s : AgentState) : AgentState :=
  let s := { s with velocity := Vec.add s.velocity s.acceleration }
  let s :=
    if s.maxSpeed ≠ 0 then
      { s with velocity := Vec.limit env s.velocity s.maxSpeed }
    else s
  let s :=
    if s.minSpeed ≠ 0 then
      { s with velocity := Vec.limitLow env s.velocity s.minSpeed }
    else s
  { s with location := Vec.add s.location s.velocity }

/-- The orientation phase of `step` (`agent.js:287-291`): when
`pointToDirection` and the speed exceeds 0.1, turn toward the velocity via
`atan2`, converted to degrees. -/
def stepOrient (env : MathEnv) (s : AgentState) : AgentState :=
  if s.pointToDirection ∧ Vec.mag env s.velocity > 1 / 10 then
    { s with angle := env.radToDeg (env.atan2 s.velocity.y s.velocity.x) }
  else s

/-- The tail of the active branch of `step` (`agent.js:323-331`): run the
`afterStep` hook, reset the acceleration by multiplying it by zero, and
decrement a positive lifespan. -/
def stepFinish (hooks : Hooks) (s : AgentState) : AgentState :=
  let s := applyOptHook hooks.afterStep s
  let s := { s with acceleration := Vec.mult s.acceleration 0 }
  if s.lifespan > 0 then { s with lifespan := s.lifespan - 1 } else s

/-- `Agent.prototype.step` (`agent.js:132-333`): run the `beforeStep` hook,
then — unless the agent is frozen (`isStatic` or `isPressed`, checked after
the hook ran) — accumulate all forces, integrate velocity and location,
orient, apply camera-follow and boundary policy, apply parenting, run the
`afterStep` hook, reset the acceleration and decrement a positive lifespan.
Everything from the force accumulation through the lifespan decrement,
including the `afterStep` hook (`agent.js:323-325`), sits inside the
not-frozen guard (`agent.js:147-332`); a frozen agent's step ends right
after `beforeStep`. -/
def step (env : Env) (hooks : Hooks) (s0 : AgentState) : AgentState :=
  let s := applyOptHook hooks.beforeStep s0
  if ¬s.isStatic ∧ ¬s.isPressed then
    let s := stepLiquids env s
    let s := stepRepellers env s
    let s := stepAttractors env s
    let p := stepSensors env s
    let s := stepMotor env p.1 p.2
    let s := stepFriction env s
    let s := applyForce s s.world.wind
    let s := applyForce s s.world.gravity
    let s := if s.followMouse then applyForce s (seek env.math s env.mouseLoc) else s
    let s :=
      match s.seekTarget with
      | some t => applyForce s (seek env.math s t.location)
      | none => s
    let s := flowFieldForceStep env s
    let s := if s.flocking then flock env.math s env.elements else s
    let s := if s.avoidEdges then checkAvoidEdges env.math s else s
    let s := stepIntegrate env.math s
    let s := stepOrient env.math s
    let s := if s.controlCamera then checkCameraEdges s else s
    let s := if s.checkEdges ∨ s.wrapEdges then (checkWorldEdges s).1 else s
    let s := stepParent env s
    stepFinish hooks s
  else s

/-- JS defaulting `options.f || d` for numbers: both `undefined` and `0` are
falsy, so they fall back to the default. -/
def orQ (o : Option ℚ) (d : ℚ) : ℚ :=
  match o with
  | none => d
  | some v => if v = 0 then d else v

/-- Modelled from the spec: the fields initialized by the external `Element`
base constructor (`exports.Element.call(this, options)`, `agent.js:53`) —
identity, kinematics, size, the world reference, flags and the per-agent
scratch buffers. The Element/World construction is declared out of scope by
the spec (section 1), so the base state is an input to the Agent
constructor model. -/
structure ElementBase where
  id : ℕ
  className : String
  location : Vec
  velocity : Vec
  acceleration : Vec
  angle : ℚ
  width : ℚ
  height : ℚ
  world : World
  isPressed : Bool
  controlCamera : Bool
  sensors : List Sensor
  parent : Option ParentRef
  applyForceVector : Vec
  followTargetVector : Vec
  followDesiredVelocity : Vec
  separateSumForceVector : Vec
  alignSumForceVector : Vec
  cohesionSumForceVector : Vec
  checkCameraEdgesVector : Vec
  cameraDiffVector : Vec
  zeroForceVector : Vec

/-- The options object accepted by the `Agent` constructor
(`opt_options`, `agent.js:47`): every field is optional — `none` models an
absent (undefined) property. -/
structure AgentOptions where
  mass : Option ℚ := none
  maxSpeed : Option ℚ := none
  minSpeed : Option ℚ := none
  motorSpeed : Option ℚ := none
  lifespan : Option ℚ := none
  offsetDistance : Option ℚ := none
  offsetAngle : Option ℚ := none
  pointToDirection : Option Bool := none
  followMouse : Option Bool := none
  seekTarget : Option Elem := none
  followTarget : Option Elem := none
  isStatic : Option Bool := none
  draggable : Option Bool := none
  checkEdges : Option Bool := none
  wrapEdges : Option Bool := none
  avoidEdges : Option Bool := none
  avoidEdgesStrength : Option ℚ := none
  bounciness : Option ℚ := none
  maxSteeringForce : Option ℚ := none
  turningRadius : Option ℚ := none
  thrust : Option ℚ := none
  flocking : Option Bool := none
  desiredSeparation : Option ℚ := none
  separateStrength : Option ℚ := none
  alignStrength : Option ℚ := none
  cohesionStrength : Option ℚ := none
  flowField : Option FlowField := none

/-- The `Agent` constructor (`agent.js:47-122`): delegates to the external
`Element` base, then assigns every Agent field from the options with JS
truthiness defaulting, exactly as written in `agent.js:55-83` — patterns
`options.f || d` (zero falls back to the default: `orQ`), and
`options.f === 0 ? 0 : options.f || d` / `options.f === false ? false :
options.f || d` (an explicit zero or false is kept: `Option.getD`).
The body contains no validation and no throw statement, so the result type's
error case is never produced; the `Except` codomain records that a JS
constructor could in principle raise. The `beforeStep`/`afterStep` options
become the agent's `Hooks` (kept outside `AgentState`); the mouse-event
wiring for draggable agents (`agent.js:85-121`) is DOM plumbing, out of
scope. -/
def Agent.make (base : ElementBase) (options : AgentOptions) :
    Except String AgentState :=
  Except.ok
    { id := base.id
      className := base.className
      location := base.location
      velocity := base.velocity
      acceleration := base.acceleration
      angle := base.angle
      width := base.width
      height := base.height
      world := base.world
      isPressed := base.isPressed
      controlCamera := base.controlCamera
      sensors := base.sensors
      parent := base.parent
      applyForceVector := base.applyForceVector
      followTargetVector := base.followTargetVector
      followDesiredVelocity := base.followDesiredVelocity
      separateSumForceVector := base.separateSumForceVector
      alignSumForceVector := base.alignSumForceVector
      cohesionSumForceVector := base.cohesionSumForceVector
      checkCameraEdgesVector := base.checkCameraEdgesVector
      cameraDiffVector := base.cameraDiffVector
      zeroForceVector := base.zeroForceVector
      mass := orQ options.mass 10
      maxSpeed := options.maxSpeed.getD 10
      minSpeed := orQ options.minSpeed 0
      motorSpeed := orQ options.motorSpeed 0
      lifespan := options.lifespan.getD (-1)
      offsetDistance := options.offsetDistance.getD 30
      offsetAngle := orQ options.offsetAngle 0
      pointToDirection := options.pointToDirection.getD true
      followMouse := options.followMouse.getD false
      seekTarget := options.seekTarget
      followTarget := options.followTarget
      isStatic := options.isStatic.getD false
      draggable := options.draggable.getD false
      checkEdges := options.checkEdges.getD true
      wrapEdges := options.wrapEdges.getD false
      avoidEdges := options.avoidEdges.getD false
      avoidEdgesStrength := options.avoidEdgesStrength.getD 200
      bounciness := options.bounciness.getD (3 / 4)
      maxSteeringForce := options.maxSteeringForce.getD 100
      turningRadius := options.turningRadius.getD 90
      thrust := options.thrust.getD 5
      flocking := options.flocking.getD false
      desiredSeparation := options.desiredSeparation.getD (base.width * 2)
      separateStrength := options.separateStrength.getD (3 / 10)
      alignStrength := options.alignStrength.getD (1 / 5)
      cohesionStrength := options.cohesionStrength.getD (1 / 10)
      flowField := options.flowField }

/-!
## Concrete fixtures

A test math environment whose square root is exact on the perfect squares the
scenarios below hit, a test world, and a baseline agent whose configuration
fields carry the constructor's default values.
-/

/-- A concrete math environment: `sqrt` is the exact square root on the
inputs arising in the scenarios below (36, 64, 100, 400) and irrelevant
elsewhere; the trigonometric slots are never reached by the scenarios. -/
def mathT : MathEnv :=
  { sqrt := fun q =>
      if q = 36 then 6
      else if q = 64 then 8
      else if q = 100 then 10
      else if q = 400 then 20
      else 0
    cos := fun _ => 0
    sin := fun _ => 0
    atan2 := fun _ _ => 0
    degToRad := fun _ => 0
    radToDeg := fun _ => 0 }

/-- A concrete 800×600 world with no wind, no gravity and no friction. -/
def worldT : World :=
  { width := 800, height := 600, gravity := ⟨0, 0⟩, wind := ⟨0, 0⟩,
    c := none, location := ⟨0, 0⟩ }

/-- A baseline agent at the origin, at rest, with the constructor's default
configuration values (`agent.js:55-83`) and zeroed scratch buffers. -/
def agentT : AgentState :=
  { id := 0
    className := "Agent"
    location := ⟨0, 0⟩
    velocity := ⟨0, 0⟩
    acceleration := ⟨0, 0⟩
    angle := 0
    width := 20
    height := 20
    world := worldT
    isPressed := false
    controlCamera := false
    sensors := []
    parent := none
    applyForceVector := ⟨0, 0⟩
    followTargetVector := ⟨0, 0⟩
    followDesiredVelocity := ⟨0, 0⟩
    separateSumForceVector := ⟨0, 0⟩
    alignSumForceVector := ⟨0, 0⟩
    cohesionSumForceVector := ⟨0, 0⟩
    checkCameraEdgesVector := ⟨0, 0⟩
    cameraDiffVector := ⟨0, 0⟩
    zeroForceVector := ⟨0, 0⟩
    mass := 10
    maxSpeed := 10
    minSpeed := 0
    motorSpeed := 0
    lifespan := -1
    offsetDistance := 30
    offsetAngle := 0
    pointToDirection := true
    followMouse := false
    seekTarget := none
    followTarget := none
    isStatic := false
    draggable := false
    checkEdges := true
    wrapEdges := false
    avoidEdges := false
    avoidEdgesStrength := 200
    bounciness := 3 / 4
    maxSteeringForce := 100
    turningRadius := 90
    thrust := 5
    flocking := false
    desiredSeparation := 40
    separateStrength := 3 / 10
    alignStrength := 1 / 5
    cohesionStrength := 1 / 10
    flowField := none }

/-- A concrete environment with empty registries and inert callbacks. -/
def envT : Env :=
  { math := mathT, liquids := [], repellers := [], attractors := [],
    elements := [], mouseLoc := ⟨0, 0⟩, sensorForce := fun _ _ => ⟨0, 0⟩ }

/-!
## Claims
-/

/-- An agent whose location (1, 2) and velocity (3, 4) differ, making the
source of `getVelocity`'s no-axis copy observable. -/
def agentC1 : AgentState := { agentT with location := ⟨1, 2⟩, velocity := ⟨3, 4⟩ }

/-- C1: evaluation at the failing input. The claim says `getVelocity()` with
no axis argument returns a fresh vector holding the agent's velocity
components; on an agent with location (1, 2) and velocity (3, 4) the code
(`agent.js:802`) returns the vector (1, 2) — the location's components, not
the velocity's — contradicting the method's own doc comment ("returns a
clone of this object's velocity"). The axis cases do return `velocity.x` and
`velocity.y` as claimed. -/
theorem getVelocity_no_axis_returns_location_copy :
    getVelocity agentC1 none = JsValue.vec ⟨1, 2⟩ ∧
    agentC1.location = ⟨1, 2⟩ ∧
    agentC1.velocity = ⟨3, 4⟩ ∧
    JsValue.vec ⟨1, 2⟩ ≠ JsValue.vec ⟨3, 4⟩ ∧
    getVelocity agentC1 (some "x") = JsValue.num 3 ∧
    getVelocity agentC1 (some "y") = JsValue.num 4 := by
  refine ⟨rfl, rfl, rfl, by decide, rfl, rfl⟩

/-- The agent of the bounce scenario: at (0, 50), width 20, bounciness 3/4,
`wrapEdges = false`, moving left at speed 5, in the 800×600 test world. -/
def agentC7 : AgentState := { agentT with location := ⟨0, 50⟩, velocity := ⟨-5, 0⟩ }

/-- C7: the bounce scenario. For an agent at location (0, 50) with width 20,
bounciness 0.75, `wrapEdges` off and `velocity.x = -5`, the boundary check
clamps `location.x` to 10 (half the width), reverses and scales the
horizontal velocity to 3.75, leaves the y components alone, and reports that
a boundary was crossed. -/
theorem checkWorldEdges_bounce_scenario :
    (checkWorldEdges agentC7).1.location = ⟨10, 50⟩ ∧
    (checkWorldEdges agentC7).1.velocity = ⟨15 / 4, 0⟩ ∧
    (checkWorldEdges agentC7).2 = true := by
  norm_num [checkWorldEdges, agentC7, agentT, worldT]

/-- Hooks whose effects are distinguishable: `beforeStep` sets the angle to
1, `afterStep` would set it to 99. -/
def hooksC2 : Hooks :=
  { beforeStep := some fun s => { s with angle := 1 },
    afterStep := some fun s => { s with angle := 99 } }

/-- A frozen agent (`isStatic = true`). -/
def agentC2 : AgentState := { agentT with isStatic := true }

/-- C2, counterexample. The claim says a frozen agent's `step()` invokes both
configured hooks. On a frozen agent with both hooks configured, `step`
produces the state left by `beforeStep` alone (angle 1); running both hooks
would leave angle 99, so `afterStep` was not invoked — it sits inside the
not-frozen guard (`agent.js:323-325`). -/
theorem step_frozen_skips_afterStep_cex :
    (step envT hooksC2 agentC2).angle = 1 ∧
    (applyOptHook hooksC2.afterStep (applyOptHook hooksC2.beforeStep agentC2)).angle = 99 ∧
    (1 : ℚ) ≠ 99 := by
  refine ⟨rfl, rfl, by norm_num⟩

/-- C2, amended: for every agent that is frozen once `beforeStep` has run
(`isStatic` or `isPressed`), a call to `step()` performs exactly the
`beforeStep` hook and nothing else — in particular the `afterStep` hook is
skipped along with the physics. -/
theorem step_frozen_runs_only_beforeStep (env : Env) (hooks : Hooks)
    (s : AgentState)
    (h : (applyOptHook hooks.beforeStep s).isStatic = true ∨
         (applyOptHook hooks.beforeStep s).isPressed = true) :
    step env hooks s = applyOptHook hooks.beforeStep s := by
  unfold step
  rcases h with h | h <;> simp [h]

/-- C2, witness for the amended theorem: a concrete frozen agent with both
hooks configured, on which `step` equals the `beforeStep` application. -/
theorem step_frozen_runs_only_beforeStep_witness :
    ((applyOptHook hooksC2.beforeStep agentC2).isStatic = true ∨
     (applyOptHook hooksC2.beforeStep agentC2).isPressed = true) ∧
    step envT hooksC2 agentC2 = applyOptHook hooksC2.beforeStep agentC2 :=
  ⟨Or.inl rfl, step_frozen_runs_only_beforeStep envT hooksC2 agentC2 (Or.inl rfl)⟩

/-- C6: on an agent with `isStatic = true` and no hooks configured, any
number of `step()` calls leaves location, velocity and acceleration exactly
unchanged: the whole physics block sits inside the not-frozen guard
(`agent.js:147-332`), so each step is the identity. -/
theorem step_static_preserves_kinematics (env : Env) (hooks : Hooks)
    (s : AgentState) (n : ℕ)
    (hb : hooks.beforeStep = none) (ha : hooks.afterStep = none)
    (hs : s.isStatic = true) :
    ((step env hooks)^[n] s).location = s.location ∧
    ((step env hooks)^[n] s).velocity = s.velocity ∧
    ((step env hooks)^[n] s).acceleration = s.acceleration := by
  have h1 : step env hooks s = s := by
    unfold step
    rw [hb]
    simp [applyOptHook, hs]
  rw [Function.iterate_fixed h1]
  exact ⟨rfl, rfl, rfl⟩

/-- A frozen agent with the baseline configuration. -/
def agentStatic : AgentState := { agentT with isStatic := true }

/-- Hooks with neither slot configured. -/
def hooksNone : Hooks := {}

/-- C6, witness: three steps on a concrete static, hook-free agent keep its
kinematic state. -/
theorem step_static_preserves_kinematics_witness :
    (hooksNone.beforeStep = none ∧ hooksNone.afterStep = none ∧
     agentStatic.isStatic = true) ∧
    (((step envT hooksNone)^[3] agentStatic).location = agentStatic.location ∧
     ((step envT hooksNone)^[3] agentStatic).velocity = agentStatic.velocity ∧
     ((step envT hooksNone)^[3] agentStatic).acceleration = agentStatic.acceleration) :=
  ⟨⟨rfl, rfl, rfl⟩,
   step_static_preserves_kinematics envT hooksNone agentStatic 3 rfl rfl rfl⟩

/-- An agent near the left edge (x = 50 < `avoidEdgesStrength` = 200) and
vertically far from both horizontal boundaries (200 ≤ y = 300 ≤ 400) of the
800×600 test world, at rest. -/
def agentC3 : AgentState := { agentT with location := ⟨50, 300⟩, avoidEdges := true }

/-- C3: evaluation at the failing input. The claim says that for an agent
within `avoidEdgesStrength` of a horizontal boundary but at least
`avoidEdgesStrength` from both vertical boundaries, only the x-axis
avoidance force is accumulated. On such an agent `checkAvoidEdges` instead
accumulates ⟨1, 1⟩: the `maxSpeed` local set by the x block
(`agent.js:632-636`) is never cleared, so the y block's `if (maxSpeed)`
(`agent.js:649`) fires on the stale value and applies a spurious y-axis
force of 10/mass = 1. -/
theorem checkAvoidEdges_stale_maxSpeed_applies_y_force :
    agentC3.location.x < agentC3.avoidEdgesStrength ∧
    agentC3.avoidEdgesStrength ≤ agentC3.location.y ∧
    agentC3.location.y ≤ agentC3.world.height - agentC3.avoidEdgesStrength ∧
    agentC3.acceleration = ⟨0, 0⟩ ∧
    (checkAvoidEdges mathT agentC3).acceleration = ⟨1, 1⟩ := by
  norm_num [checkAvoidEdges, agentC3, agentT, worldT, mathT, qTruthy, applyForce,
    Vec.limit, Vec.mag, Vec.normalize, Vec.sub, Vec.mult, Vec.div, Vec.add]

/-- The baseline agent with a leaked cohesion scratch value: identical to
`agentT` except for `cohesionSumForceVector`. -/
def agentC4b : AgentState := { agentT with cohesionSumForceVector := ⟨-14, 99⟩ }

/-- A same-class neighbor 6 units away (inside the cohesion radius 10). -/
def elemC4 : Elem :=
  { id := 1, className := "Agent", location := ⟨6, 0⟩, velocity := ⟨0, 0⟩,
    width := 20, height := 20, G := 0, mass := 10, c := 0 }

/-- C4: evaluation at the failing input. The claim says the scratch sum
vectors are fully reset at the start of each use, so `cohesion` returns the
same force for any two prior scratch values. But `cohesion` resets only the
y component (twice — `agent.js:514-515`), so two agents identical except for
the prior `cohesionSumForceVector` get different steering forces: ⟨10, 0⟩
from a zero scratch versus ⟨-10, 0⟩ from a leaked scratch x = -14. -/
theorem cohesion_scratch_x_leaks :
    agentC4b = { agentT with cohesionSumForceVector := ⟨-14, 99⟩ } ∧
    (cohesion mathT agentT [elemC4]).2 = ⟨10, 0⟩ ∧
    (cohesion mathT agentC4b [elemC4]).2 = ⟨-10, 0⟩ ∧
    (⟨10, 0⟩ : Vec) ≠ ⟨-10, 0⟩ := by
  refine ⟨rfl, ?_, ?_, by decide⟩ <;>
    norm_num [cohesion, agentC4b, elemC4, agentT, worldT, mathT, Vec.distance,
      Vec.mag, Vec.sub, Vec.add, Vec.div, Vec.normalize, Vec.mult, Vec.limit,
      List.foldl]

/-- A concrete Element base state for the constructor model. -/
def baseT : ElementBase :=
  { id := 0, className := "Agent", location := ⟨0, 0⟩, velocity := ⟨0, 0⟩,
    acceleration := ⟨0, 0⟩, angle := 0, width := 20, height := 20,
    world := worldT, isPressed := false, controlCamera := false, sensors := [],
    parent := none, applyForceVector := ⟨0, 0⟩, followTargetVector := ⟨0, 0⟩,
    followDesiredVelocity := ⟨0, 0⟩, separateSumForceVector := ⟨0, 0⟩,
    alignSumForceVector := ⟨0, 0⟩, cohesionSumForceVector := ⟨0, 0⟩,
    checkCameraEdgesVector := ⟨0, 0⟩, cameraDiffVector := ⟨0, 0⟩,
    zeroForceVector := ⟨0, 0⟩ }

/-- C5, counterexample. The claim says constructing an Agent with malformed
configuration (a required option missing) raises a descriptive validation
error rather than silently proceeding with defaults. Constructing with every
option absent succeeds and silently fills in the documented defaults
(`agent.js:55-83` treats every option as optional; the constructor contains
no validation and no throw). -/
theorem agent_make_missing_options_silently_defaults_cex :
    ∃ s, Agent.make baseT {} = Except.ok s ∧
      s.mass = 10 ∧ s.maxSpeed = 10 ∧ s.checkEdges = true ∧
      s.bounciness = 3 / 4 ∧ s.avoidEdgesStrength = 200 :=
  ⟨_, rfl, rfl, rfl, rfl, rfl, rfl⟩

/-- C5, amended: Agent construction never fails — every option is optional,
and a missing or falsy option silently falls back to its default; there is
no construction-time validation error. -/
theorem agent_make_never_fails (base : ElementBase) (options : AgentOptions) :
    ∃ s, Agent.make base options = Except.ok s :=
  ⟨_, rfl⟩

/-- The agent of the attraction scenario: mass 1, 10×10, at the origin. -/
def agentC8 : AgentState := { agentT with mass := 1, width := 10, height := 10 }

/-- The attractor of the scenario: G = 1, mass 100, 10×10, 20 units away
along the x axis. -/
def attrC8 : Elem :=
  { id := 1, className := "Attractor", location := ⟨20, 0⟩, velocity := ⟨0, 0⟩,
    width := 10, height := 10, G := 1, mass := 100, c := 0 }

/-- C8: the attraction scenario. With the attractor 20 units from the agent
along the x axis, for any square root correct at 400, `attract` returns
exactly ⟨1/4, 0⟩ — magnitude 0.25 = 1·100·1/20² pointing from the agent
toward the attractor — and the distance 20 lies inside the clamp interval
[own width·height/8, attractor width·height] = [12.5, 100], so the
`constrain` clamp leaves it unchanged. -/
theorem attract_scenario_quarter_magnitude (env : MathEnv)
    (h : env.sqrt 400 = 20) :
    attract env agentC8 attrC8 = ⟨1 / 4, 0⟩ ∧
    constrain 20 (agentC8.width * agentC8.height / 8)
      (attrC8.width * attrC8.height) = 20 := by
  constructor
  · norm_num [attract, Vec.VectorSub, Vec.sub, Vec.mag, Vec.normalize, Vec.div,
      Vec.mult, constrain, agentC8, attrC8, agentT, h]
  · norm_num [constrain, agentC8, attrC8, agentT]

/-- C8, witness: the test environment's square root is correct at 400, and
the scenario evaluates as the theorem states. -/
theorem attract_scenario_quarter_magnitude_witness :
    mathT.sqrt 400 = 20 ∧
    (attract mathT agentC8 attrC8 = ⟨1 / 4, 0⟩ ∧
     constrain 20 (agentC8.width * agentC8.height / 8)
       (attrC8.width * attrC8.height) = 20) :=
  ⟨by norm_num [mathT],
   attract_scenario_quarter_magnitude mathT (by norm_num [mathT])⟩

/-- C9: frame property of `applyForce`. For any agent with nonzero mass and
any force, `applyForce` changes only the `applyForceVector` scratch buffer
(set to the force divided by the mass) and the acceleration (increased
componentwise by force/mass); location, velocity and angle are untouched.
The source copies the argument into the scratch buffer before scaling
(`agent.js:344-347`), so the argument vector itself is never written — in
the embedding the force enters only by reading its components. The nonzero
mass keeps the ℚ division faithful to the JS computation. -/
theorem applyForce_frame (s : AgentState) (f : Vec) (h : s.mass ≠ 0) :
    applyForce s f =
      { s with
          applyForceVector := Vec.div (Vec.mk f.x f.y) s.mass,
          acceleration :=
            Vec.add s.acceleration (Vec.div (Vec.mk f.x f.y) s.mass) } ∧
    (applyForce s f).location = s.location ∧
    (applyForce s f).velocity = s.velocity ∧
    (applyForce s f).angle = s.angle ∧
    (applyForce s f).acceleration =
      ⟨s.acceleration.x + f.x / s.mass, s.acceleration.y + f.y / s.mass⟩ ∧
    (applyForce s f).applyForceVector = ⟨f.x / s.mass, f.y / s.mass⟩ :=
  ⟨rfl, rfl, rfl, rfl, rfl, rfl⟩

/-- C9, witness: the frame property evaluated on the baseline agent (mass
10) and the force ⟨2, 4⟩. -/
theorem applyForce_frame_witness :
    agentT.mass ≠ 0 ∧
    (applyForce agentT ⟨2, 4⟩ =
      { agentT with
          applyForceVector := Vec.div (Vec.mk (2 : ℚ) 4) agentT.mass,
          acceleration :=
            Vec.add agentT.acceleration (Vec.div (Vec.mk (2 : ℚ) 4) agentT.mass) } ∧
     (applyForce agentT ⟨2, 4⟩).location = agentT.location ∧
     (applyForce agentT ⟨2, 4⟩).velocity = agentT.velocity ∧
     (applyForce agentT ⟨2, 4⟩).angle = agentT.angle ∧
     (applyForce agentT ⟨2, 4⟩).acceleration =
       ⟨agentT.acceleration.x + 2 / agentT.mass,
        agentT.acceleration.y + 4 / agentT.mass⟩ ∧
     (applyForce agentT ⟨2, 4⟩).applyForceVector =
       ⟨2 / agentT.mass, 4 / agentT.mass⟩) :=
  ⟨by norm_num [agentT], applyForce_frame agentT ⟨2, 4⟩ (by norm_num [agentT])⟩

/-- C10: during `step`, the flow-field branch (`agent.js:242-263`) applies
no force at all when the field has no entry at the column
`floor(location.x / resolution)`: the branch is the identity on the agent's
state (in particular the acceleration is untouched). The in-column fallback
to the agent's own location happens only when the column exists and the row
does not. -/
theorem flowField_missing_column_no_force (env : Env) (s : AgentState)
    (ff : FlowField) (hff : s.flowField = some ff)
    (hcol : ff.field.lookup ⌊s.location.x / ff.resolution⌋ = none) :
    flowFieldForceStep env s = s := by
  unfold flowFieldForceStep
  rw [hff]
  simp [hcol]

/-- A flow field of resolution 10 whose only column is 2. -/
def ffC10 : FlowField := { resolution := 10, field := [(2, [(3, ⟨1, 1⟩)])] }

/-- An agent over column 5 of that field (x = 55, so ⌊55/10⌋ = 5), which is
missing from the field. -/
def agentC10 : AgentState :=
  { agentT with location := ⟨55, 30⟩, flowField := some ffC10 }

/-- C10, witness: the concrete agent sits over a missing column and the
flow-field branch leaves its state unchanged. -/
theorem flowField_missing_column_no_force_witness :
    (agentC10.flowField = some ffC10 ∧
     ffC10.field.lookup ⌊agentC10.location.x / ffC10.resolution⌋ = none) ∧
    flowFieldForceStep envT agentC10 = agentC10 :=
  ⟨⟨rfl, by norm_num [agentC10, agentT, ffC10, List.lookup]; decide⟩,
   flowField_missing_column_no_force envT agentC10 ffC10 rfl
     (by norm_num [agentC10, agentT, ffC10, List.lookup]; decide)⟩
